import Mathlib

set_option maxRecDepth 10000

/-!
Verification development for the nitorch Greens-function random-field
samplers (nitorch/nn/generators/field.py) and the VoxelMorph registration
orchestrator (nitorch/nn/modules/registration.py).

The embedding works at two levels.

First, a shape-and-cache-level semantics of the two Greens samplers:
tensors are represented by their shapes (lists of naturals), PyTorch
broadcasting is implemented exactly (right-aligned, size-1 dimensions
stretch, in-place operations additionally require the broadcast result to
equal the left operand's shape), failures are explicit `Except` errors, and
the per-instance kernel cache is explicit state threaded through `forward`.

Second, a value-level semantics over rational tensors for the spectral
filter of the vector sampler, Mathlib matrices for the kernel square-root
stage, and rational tensors plus explicit external-primitive parameters for
the VoxelMorph pipeline.
-/

/-- Error outcomes of the embedded tensor operations: the Python exceptions
the translated code can raise. -/
inductive TErr where
  | broadcastFail
  | inPlaceFail
  | attrChannelMissing
  | dimMismatch
  | shapeMismatch
  deriving DecidableEq

/-- Broadcast of a single pair of dimension sizes, as in PyTorch: a size of
one stretches to the other size, otherwise the sizes must agree. -/
def bcDim : Nat → Nat → Option Nat
  | 1, m => some m
  | n, 1 => some n
  | n, m => if n = m then some n else none

/-- Broadcast of two shapes given in reversed (innermost-first) order;
the shorter shape is implicitly padded with leading ones. -/
def bcRev : List Nat → List Nat → Option (List Nat)
  | [], ys => some ys
  | x :: xs, [] => some (x :: xs)
  | x :: xs, y :: ys =>
    match bcDim x y, bcRev xs ys with
    | some d, some rest => some (d :: rest)
    | _, _ => none

/-- PyTorch shape broadcasting: align the two shapes from the right. -/
def broadcastShapes (a b : List Nat) : Option (List Nat) :=
  (bcRev a.reverse b.reverse).map List.reverse

/-- Shape semantics of an out-of-place broadcast binary operation. -/
def outBroadcastShape (a b : List Nat) : Except TErr (List Nat) :=
  match broadcastShapes a b with
  | some r => .ok r
  | none => .error .broadcastFail

/-- Shape semantics of an in-place broadcast binary operation such as
`a *= b` or `a += b`: the broadcast result must equal the shape of the
in-place operand, otherwise PyTorch raises a RuntimeError. -/
def inPlaceBroadcastShape (a b : List Nat) : Except TErr (List Nat) :=
  match broadcastShapes a b with
  | some r => if r = a then .ok a else .error .inPlaceFail
  | none => .error .broadcastFail

/-- Embeds `utils.make_vector`: a length-one vector is broadcast to length
n, a vector of matching length is used as given. -/
def makeVector (v : List ℚ) (n : Nat) : List ℚ :=
  if v.length = 1 then List.replicate n (v.headD 1) else v

/-- A built Greens kernel at the shape-and-cache level: its tensor shape
together with a build counter identifying which rebuild produced it (the
spec itself suggests an injected build counter to observe rebuilds). -/
structure Kern where
  shape : List Nat
  buildId : Nat
  deriving DecidableEq

/-- Modelled from the spec: `spatial.greens` (module nitorch.spatial) is not
under src/. Per spec section 4.1, a scalar (no-Lame) request yields a real
array over the frequency grid of shape S, and a request with a non-zero
Lame pair yields a d by d matrix per frequency, shape S ++ [d, d] where d is
the number of spatial dimensions. Only the output shape is modelled; the
claims settled against this embedding do not depend on kernel values. -/
def greensKernelShape (S : List Nat) (lame : ℚ × ℚ) : List Nat :=
  if lame.1 ≠ 0 ∨ lame.2 ≠ 0 then S ++ [S.length, S.length] else S

/-- The attributes RandomFieldGreens.forward stores when cache_greens is
set (field.py lines 313-316): `_greens`, `_voxel_size` and `_shape`.
Note that no `_channel` attribute is ever assigned, although the cache
condition at line 290 reads one. -/
structure FieldGreensCache where
  greens : Kern
  voxelSize : List ℚ
  shape : List Nat
  deriving DecidableEq

/-- Constructor state of RandomFieldGreens (field.py lines 208-250); the
forward overloads are not used by the claims, so shape, channel and voxel
size are read from the instance. -/
structure RandomFieldGreens where
  shape : List Nat
  channel : Nat
  absolute : ℚ
  membrane : ℚ
  bending : ℚ
  voxelSize : List ℚ
  cacheGreens : Bool
  deriving DecidableEq

/-- The else-branch of the cache conditional in RandomFieldGreens.forward
(field.py lines 293-331) at the shape-and-cache level: build the per-channel
scalar kernels (stacked shape channel :: S, square-rooted in place), store
the cache attributes when cache_greens is set, then run the sampling
pipeline.  The noise multiply `sample *= greens.unsqueeze(-1)` and the mean
addition `sample += utils.unsqueeze(mean, -1, len(shape))` are in-place
broadcast operations; `fft.complex` merges the two leading noise arrays
(dropping the leading 2), and the inverse FFT, real part and volume rescale
preserve the shape.  The cache attributes are assigned before the noise
multiply, so they survive a later exception, as in the source. -/
def RandomFieldGreens.rebuildAndSample (m : RandomFieldGreens)
    (st : Option FieldGreensCache) (nextId batch : Nat) (vs : List ℚ) :
    Except TErr (List Nat) × Option FieldGreensCache × Bool :=
  let S := m.shape
  let C := m.channel
  let d := S.length
  let greens : Kern := ⟨C :: S, nextId⟩
  let st' := if m.cacheGreens then some ⟨greens, vs, S⟩ else st
  let res : Except TErr (List Nat) := do
    let s1 ← inPlaceBroadcastShape (2 :: batch :: C :: S) (greens.shape ++ [1])
    let s2 := s1.drop 1
    let s3 ← inPlaceBroadcastShape s2 (C :: List.replicate d 1)
    pure s3
  (res, st', true)

/-- RandomFieldGreens.forward (field.py lines 252-331) at the
shape-and-cache level.  The cache conditional at lines 288-291 is
`hasattr(self, '_greens') and self._voxel_size == voxel_size and
self._channel == channel and self._shape == shape`, evaluated with Python
short-circuiting: when no cache exists, or the stored voxel size differs,
the else branch rebuilds; but when the stored voxel size matches, the next
conjunct reads `self._channel`, an attribute this class never assigns, and
the call raises AttributeError.  Returns (result shape or error, new cache
state, whether a kernel build ran). -/
def RandomFieldGreens.forward (m : RandomFieldGreens)
    (st : Option FieldGreensCache) (nextId batch : Nat) :
    Except TErr (List Nat) × Option FieldGreensCache × Bool :=
  let vs := makeVector m.voxelSize m.shape.length
  match st with
  | some c =>
    if c.voxelSize = vs then
      (.error .attrChannelMissing, st, false)
    else
      m.rebuildAndSample st nextId batch vs
  | none => m.rebuildAndSample st nextId batch vs

/-- The attributes RandomGridGreens.forward stores when cache_greens is set
(field.py lines 429-432): here every attribute read by the cache condition
is also stored. -/
structure GridGreensCache where
  greens : Kern
  voxelSize : List ℚ
  shape : List Nat
  deriving DecidableEq

/-- Constructor state of RandomGridGreens (field.py lines 337-376). -/
structure RandomGridGreens where
  shape : List Nat
  mean : ℚ
  absolute : ℚ
  membrane : ℚ
  bending : ℚ
  lame : ℚ × ℚ
  voxelSize : List ℚ
  cacheGreens : Bool
  deriving DecidableEq

/-- Kernel build of RandomGridGreens.forward (field.py lines 413-432) at the
shape level: `spatial.greens` yields shape S (no Lame) or S ++ [d, d]
(Lame); with Lame terms the SVD square-root (`greens, scale, _ = torch.svd;
greens *= scale.sqrt_().unsqueeze(-1)`) keeps the matrix shape, without them
the in-place elementwise square root keeps the scalar shape; the cache
attributes are stored when cache_greens is set. -/
def RandomGridGreens.build (m : RandomGridGreens)
    (st : Option GridGreensCache) (nextId : Nat) (vs : List ℚ) :
    Kern × Option GridGreensCache × Bool :=
  let g : Kern := ⟨greensKernelShape m.shape m.lame, nextId⟩
  (g, if m.cacheGreens then some ⟨g, vs, m.shape⟩ else st, true)

/-- The sampling pipeline of RandomGridGreens.forward (field.py lines
434-453) at the shape level: draw noise of shape [2, batch] ++ S ++ [d];
if the kernel is matrix-valued apply `linalg.matvec`, otherwise multiply by
the kernel unsqueezed on the last axis and divide by the square root of the
per-axis voxel-size vector (shape [d]); then `fft.complex` drops the leading
2, and the inverse FFT, real part, volume rescale and scalar mean addition
preserve the shape. -/
def gridSampleShape (greens : Kern) (S : List Nat) (d batch : Nat) :
    Except TErr (List Nat) := do
  let sampleShape := 2 :: batch :: (S ++ [d])
  let s1 ←
    if d < greens.shape.length then
      match broadcastShapes (greens.shape.dropLast.dropLast) (sampleShape.dropLast) with
      | some b =>
        if greens.shape.getLastD 0 = sampleShape.getLastD 0 then
          .ok (b ++ [greens.shape.dropLast.getLastD 0])
        else .error .broadcastFail
      | none => .error .broadcastFail
    else do
      let t ← outBroadcastShape sampleShape (greens.shape ++ [1])
      outBroadcastShape t [d]
  pure (s1.drop 1)

/-- RandomGridGreens.forward (field.py lines 378-453) at the
shape-and-cache level.  The cache conditional at lines 408-410 reads
exactly the attributes that are stored, so it evaluates without error: a
hit returns the cached kernel (the dtype/device `.to` conversion keeps
shape and identity), a miss rebuilds.  Returns (result shape or error, new
cache state, whether a build ran, the kernel used by the filter). -/
def RandomGridGreens.forward (m : RandomGridGreens)
    (st : Option GridGreensCache) (nextId batch : Nat) :
    Except TErr (List Nat) × Option GridGreensCache × Bool × Kern :=
  let S := m.shape
  let d := S.length
  let vs := makeVector m.voxelSize d
  match st with
  | some c =>
    if c.voxelSize = vs ∧ c.shape = S then
      (gridSampleShape c.greens S d batch, st, false, c.greens)
    else
      let (g, st', built) := m.build st nextId vs
      (gridSampleShape g S d batch, st', built, g)
  | none =>
    let (g, st', built) := m.build st nextId vs
    (gridSampleShape g S d batch, st', built, g)

/-- A value-level tensor over the rationals: a shape and a function giving
the entry at each multi-index (indices are full-rank lists). -/
structure Tensor where
  shape : List Nat
  val : List Nat → ℚ

/-- Index mapping realised by broadcasting: for an operand of shape s inside
a broadcast result, the operand is read at the trailing coordinates of the
result index, with coordinates over size-one dimensions clamped to zero. -/
def bcMapIdx (s idx : List Nat) : List Nat :=
  (List.zipWith (fun d i => if d = 1 then 0 else i) s.reverse idx.reverse).reverse

/-- Value-level out-of-place broadcast binary operation. -/
def tBinop (f : ℚ → ℚ → ℚ) (a b : Tensor) : Except TErr Tensor :=
  match broadcastShapes a.shape b.shape with
  | some sh =>
    .ok ⟨sh, fun idx => f (a.val (bcMapIdx a.shape idx)) (b.val (bcMapIdx b.shape idx))⟩
  | none => .error .broadcastFail

/-- Value-level `unsqueeze(-1)`: append a trailing size-one axis. -/
def tUnsqueezeLast (t : Tensor) : Tensor :=
  ⟨t.shape ++ [1], fun idx => t.val idx.dropLast⟩

/-- Value-level elementwise map (used for `voxel_size.sqrt()`, whose square
root is an external torch primitive passed in as a function). -/
def tMap (f : ℚ → ℚ) (t : Tensor) : Tensor :=
  ⟨t.shape, fun idx => f (t.val idx)⟩

/-- Value-level embedding of `nitorch.core.linalg.matvec(mat, vec)`: mat has
shape M ++ [m, n], vec has shape V ++ [n], the batch shapes M and V
broadcast, and the output entry at (batch index, i) is the dot product of
row i of the matrix with the vector at that site.  linalg.matvec itself is
an external primitive of the excluded core; this is its documented
batched-matrix-vector contract. -/
def tMatvec (mat vec : Tensor) : Except TErr Tensor :=
  match mat.shape.reverse, vec.shape.reverse with
  | n :: m :: mrev, v0 :: vrev =>
    if n = v0 then
      match bcRev mrev vrev with
      | some brev =>
        .ok ⟨brev.reverse ++ [m], fun idx =>
          (List.range n).foldr (fun j acc =>
            acc + mat.val (bcMapIdx mrev.reverse idx.dropLast ++ [idx.getLastD 0, j])
                * vec.val (bcMapIdx vrev.reverse idx.dropLast ++ [j])) 0⟩
      | none => .error .broadcastFail
    else .error .broadcastFail
  | _, _ => .error .broadcastFail

/-- Value-level embedding of the spectral filter of RandomGridGreens.forward
(field.py lines 436-442): if the kernel is matrix-valued (Lame terms
present, kernel rank exceeds the spatial rank) apply
`linalg.matvec(greens, sample)`; otherwise `sample = sample *
greens.unsqueeze(-1)` followed by `sample = sample / voxel_size.sqrt()`.
The square root applied to the voxel-size vector is the external torch
primitive, passed in as sqrtFn. -/
def gridSpectralFilter (sqrtFn : ℚ → ℚ) (nbDim : Nat) (voxelSize : Tensor)
    (greens sample : Tensor) : Except TErr Tensor :=
  if nbDim < greens.shape.length then
    tMatvec greens sample
  else do
    let s1 ← tBinop (· * ·) sample (tUnsqueezeLast greens)
    tBinop (· / ·) s1 (tMap sqrtFn voxelSize)

/-- An exact square root on the rational inputs exercised by the concrete
evaluations below; it stands in for the floating-point torch square root at
inputs where the square root is rational. -/
def sqrtTable : ℚ → ℚ :=
  fun q => if q = 1 then 1 else if q = 4 then 2 else if q = 9 then 3 else
    if q = 36 then 6 else 0

/-- Follows the spec's words for claim C5 (spec section 4.4): divide by the
square root of the voxel volume, the product of the per-axis voxel sizes. -/
def specVolumeDivide (sqrtFn : ℚ → ℚ) (voxelSize : List ℚ) (x : ℚ) : ℚ :=
  x / sqrtFn voxelSize.prod

/-- Embeds the Lame branch of the kernel square-root stage (field.py lines
423-425): `greens, scale, _ = torch.svd(greens); scale = scale.sqrt_();
greens *= scale.unsqueeze(-1)`.  torch.svd is an external primitive, so its
outputs U and scale are taken as inputs; `scale.unsqueeze(-1)` has a
trailing size-one axis, so the broadcast multiplies entry (i, j) of U by
sqrtFn (scale i), scaling the rows of U. -/
def lameKernelSqrt (sqrtFn : ℚ → ℚ) (U : Matrix (Fin 2) (Fin 2) ℚ)
    (scale : Fin 2 → ℚ) : Matrix (Fin 2) (Fin 2) ℚ :=
  Matrix.of fun i j => U i j * sqrtFn (scale i)

/-- A concrete orthogonal factor, as torch.svd returns for the kernel matrix
`svdU * diagonal svdScale * transpose svdU` at one frequency bin. -/
def svdU : Matrix (Fin 2) (Fin 2) ℚ :=
  Matrix.of fun i j =>
    if i = 0 then (if j = 0 then (3 : ℚ)/5 else -4/5)
    else (if j = 0 then 4/5 else 3/5)

/-- The singular values paired with svdU, sorted descending as torch.svd
guarantees. -/
def svdScale : Fin 2 → ℚ := fun i => if i = 0 then 4 else 1

/-- The d by d Greens kernel matrix at the chosen frequency bin,
reconstructed from its singular value decomposition. -/
def lameKernelA : Matrix (Fin 2) (Fin 2) ℚ :=
  svdU * Matrix.diagonal svdScale * svdU.transpose

/-- The two field types the resize layer distinguishes; the source passes
the strings 'displacement' and 'disp' for the displacement type and 'grid'
for the transformation type. -/
inductive FieldType where
  | grid
  | disp
  deriving DecidableEq

/-- Modelled from the spec: `nitorch.nn.check.dim` is not under src/.  Per
spec sections 4.6 and 7 the validation verifies the inputs' dimensionality
(spatial rank dim means tensors of rank dim + 2) and reports a contract
violation otherwise. -/
def checkDim (dim : Nat) (a b : List Nat) : Except TErr Unit :=
  if a.length = dim + 2 ∧ b.length = dim + 2 then .ok () else .error .dimMismatch

/-- Modelled from the spec: `nitorch.nn.check.shape` is not under src/.  Per
spec sections 4.6 and 7 it compares the listed dimensions of two shapes,
allowing a size-one broadcast when broadcast_ok is set, skips the check when
an input is absent, and reports a contract violation on disagreement. -/
def checkShapeDims (a b : Option (List Nat)) (dims : List Nat)
    (broadcastOk : Bool) : Except TErr Unit :=
  match a, b with
  | some sa, some sb =>
    if dims.all (fun i => (sa.getD i 1 == sb.getD i 1)
        || (broadcastOk && ((sa.getD i 1 == 1) || (sb.getD i 1 == 1)))) then
      .ok ()
    else .error .shapeMismatch
  | _, _ => .ok ()

/-- Concatenation along the channel axis (dim=1), as in `torch.cat((source,
target), dim=1)` for tensors of shape batch :: channel :: spatial. -/
def catChannel (a b : Tensor) : Tensor :=
  ⟨match a.shape, b.shape with
    | bd :: c1 :: s, _ :: c2 :: _ => bd :: (c1 + c2) :: s
    | _, _ => a.shape,
   fun idx =>
    match idx, a.shape with
    | b0 :: c :: rest, _ :: c1 :: _ =>
      if c < c1 then a.val (b0 :: c :: rest) else b.val (b0 :: (c - c1) :: rest)
    | _, _ => a.val idx⟩

/-- Index translation used by channel2last: an index into the moved tensor
(batch :: spatial ++ [channel]) is read back in the original layout
(batch :: channel :: spatial). -/
def last2channelIdx : List Nat → List Nat
  | [] => []
  | b0 :: rest =>
    match rest.getLast? with
    | some c => b0 :: c :: rest.dropLast
    | none => [b0]

/-- Embeds `core.utils.channel2last`: move the channel axis (dim 1) to the
last position. -/
def channel2last (t : Tensor) : Tensor :=
  ⟨match t.shape with
    | bd :: c :: s => bd :: (s ++ [c])
    | s => s,
   fun idx => t.val (last2channelIdx idx)⟩

/-- The VoxelMorph module (registration.py lines 11-153): the spatial rank
and the layers prepared by the constructor.  UNet2, GridResize, GridExp /
GridShoot, GridPull and spatial.resize_grid are not under src/, so they are
carried as function-valued fields whose behaviour is constrained, where a
claim needs it, by contracts modelled from spec section 6. -/
structure VoxelMorph where
  dim : Nat
  unet : Tensor → Tensor
  resize : Option (List Nat) → FieldType → Tensor → Tensor
  velexp : Bool → Tensor → Tensor
  pull : Tensor → Tensor → Tensor
  resizeGrid : List Nat → Tensor → Tensor

/-- VoxelMorph.exp (registration.py lines 158-181): record the native
spatial shape velocity.shape[1:-1], resize the velocity to the integration
lattice as a displacement-type field, exponentiate, and resize back to the
native shape with type 'disp' when a displacement was requested and 'grid'
otherwise. -/
def VoxelMorph.exp (self : VoxelMorph) (velocity : Tensor)
    (displacement : Bool) : Tensor :=
  let shape := (velocity.shape.drop 1).dropLast
  let velocitySmall := self.resize none FieldType.disp velocity
  let grid := self.velexp displacement velocitySmall
  self.resize (some shape) (if displacement then FieldType.disp else FieldType.grid) grid

/-- The sanity checks of VoxelMorph.forward (registration.py lines 215-220),
in source order: dimensionality of source and target, batch compatibility
(broadcast allowed), spatial equality, and the same two shape checks for the
segmentation maps when present. -/
def VoxelMorph.checks (dim : Nat) (source target : List Nat)
    (sourceSeg targetSeg : Option (List Nat)) : Except TErr Unit := do
  checkDim dim source target
  checkShapeDims (some target) (some source) [0] true
  checkShapeDims (some target) (some source) (List.range' 2 dim) false
  checkShapeDims targetSeg sourceSeg [0] true
  checkShapeDims targetSeg sourceSeg (List.range' 2 dim) false
  pure ()

/-- VoxelMorph.forward (registration.py lines 183-245): run the sanity
checks, concatenate source and target along channels, apply the feature
network, move the channel axis last to obtain the velocity, exponentiate to
a deformation grid, warp the source by it, warp the segmentation too when
provided (resizing the grid first if the segmentation lives on a different
lattice), and return the deformed image(s) with the raw velocity. -/
def VoxelMorph.forward (self : VoxelMorph) (source target : Tensor)
    (sourceSeg targetSeg : Option Tensor) :
    Except TErr (Tensor × Option Tensor × Tensor) := do
  VoxelMorph.checks self.dim source.shape target.shape
    (sourceSeg.map Tensor.shape) (targetSeg.map Tensor.shape)
  let sourceAndTarget := catChannel source target
  let velocity := channel2last (self.unet sourceAndTarget)
  let grid := self.exp velocity false
  let deformedSource := self.pull source grid
  match sourceSeg with
  | some ss =>
    let grid2 :=
      if ss.shape.drop 2 = source.shape.drop 2 then grid
      else self.resizeGrid (ss.shape.drop 2) grid
    pure (deformedSource, some (self.pull ss grid2), velocity)
  | none => pure (deformedSource, none, velocity)

/-- The value of the identity deformation grid at a tensor index
batch :: spatial-coordinates ++ [component j]: the j-th spatial
coordinate of the site. -/
def idGridVal (idx : List Nat) : ℚ :=
  match idx with
  | [] => 0
  | _ :: rest => ((rest.dropLast.getD (rest.getLastD 0) 0 : Nat) : ℚ)

/-- The identity grid with the same shape as a given tensor. -/
def idGridLike (t : Tensor) : Tensor := ⟨t.shape, idGridVal⟩

/-- Scalar multiple of a tensor. -/
def tScale (c : ℚ) (t : Tensor) : Tensor := ⟨t.shape, fun idx => c * t.val idx⟩

/-- Same-shape elementwise sum, as used between fields living on one
lattice inside the integrators. -/
def tAddSame (a b : Tensor) : Tensor := ⟨a.shape, fun idx => a.val idx + b.val idx⟩

/-- The zero tensor of a given shape. -/
def tZero (s : List Nat) : Tensor := ⟨s, fun _ => 0⟩

/-- Every entry is zero. -/
def isZeroVal (t : Tensor) : Prop := ∀ idx, t.val idx = 0

/-- Every entry agrees with the identity deformation grid. -/
def isIdVal (t : Tensor) : Prop := ∀ idx, t.val idx = idGridVal idx

/-- One squaring step of scaling and squaring on displacement fields:
u := u + u ∘ (id + u), the composition realised by sampling u at the
deformed coordinates through the interpolation primitive pull. -/
def ssStep (pull : Tensor → Tensor → Tensor) (u : Tensor) : Tensor :=
  tAddSame u (pull u (tAddSame (idGridLike u) u))

/-- Modelled from the spec: GridExp (nitorch.nn.modules.spatial) is not
under src/.  Per spec section 4.5 (a), scaling and squaring integrates the
stationary velocity field by repeated self-composition for a fixed number
of steps: the velocity is scaled down by 2^steps and the displacement is
squared steps times; without the only-displacement flag the absolute
transformation id + u is returned. -/
def GridExpModel (pull : Tensor → Tensor → Tensor) (steps : Nat)
    (displacement : Bool) (v : Tensor) : Tensor :=
  let u := Nat.iterate (ssStep pull) steps (tScale (1 / 2 ^ steps) v)
  if displacement then u else tAddSame (idGridLike v) u

/-- State of the modelled geodesic-shooting integrator: the current momentum
and the accumulated displacement. -/
structure ShootState where
  mom : Tensor
  travel : Tensor

/-- One Euler step of the modelled geodesic shooting: the velocity is the
regularisation-operator Greens kernel K applied to the momentum, scaled by
the volume factor; the displacement is composed with the incremental flow
and the momentum is transported by it. -/
def shootStep (K : Tensor → Tensor) (pull : Tensor → Tensor → Tensor)
    (factor dt : ℚ) (s : ShootState) : ShootState :=
  let vel := tScale factor (K s.mom)
  let step := tScale dt vel
  ⟨pull s.mom (tAddSame (idGridLike s.mom) step),
   tAddSame (pull s.travel (tAddSame (idGridLike s.travel) step)) step⟩

/-- Modelled from the spec: GridShoot (nitorch.nn.modules.spatial) is not
under src/.  Per spec section 4.5 (b), geodesic shooting integrates the
velocity under the geodesic equation governed by the regularisation
operator (here its Greens kernel K), additionally scaled by a volume
factor; without the only-displacement flag the absolute transformation is
returned. -/
def GridShootModel (K : Tensor → Tensor) (pull : Tensor → Tensor → Tensor)
    (steps : Nat) (factor : ℚ) (displacement : Bool) (v : Tensor) : Tensor :=
  let s := Nat.iterate (shootStep K pull factor (1 / (steps : ℚ))) steps ⟨v, tZero v.shape⟩
  if displacement then s.travel else tAddSame (idGridLike v) s.travel

/-- RandomMultiplicativeField.forward (field.py lines 606-625): the inner
spline random field produces a real-valued sample (given here as an
arbitrary real-valued function of the tensor index); with sigmoid the
output is bias.neg().exp().add(1).reciprocal(), otherwise bias.exp(). -/
noncomputable def RandomMultiplicativeField.forward (sigmoid : Bool)
    (field : List Nat → ℝ) : List Nat → ℝ :=
  fun idx =>
    if sigmoid then (Real.exp (-(field idx)) + 1)⁻¹ else Real.exp (field idx)

/-- Batch sizes disagree and neither is one, so not even a broadcast can
reconcile them (claim C6's first failure condition). -/
def batchIncompat (s t : List Nat) : Prop :=
  t.getD 0 1 ≠ s.getD 0 1 ∧ t.getD 0 1 ≠ 1 ∧ s.getD 0 1 ≠ 1

/-- Some checked spatial dimension disagrees (claim C6's second failure
condition). -/
def spatialIncompat (dim : Nat) (s t : List Nat) : Prop :=
  ∃ i ∈ List.range' 2 dim, t.getD i 1 ≠ s.getD i 1

/-- The RandomFieldGreens instance of claim C1's failing run: the smallest
lattice on which the first forward call completes, caching enabled. -/
def mField1 : RandomFieldGreens := ⟨[1], 1, 1/1000, 1/10, 0, [1], true⟩

/-- The cache state the first forward call of mField1 stores. -/
def cField1 : FieldGreensCache := ⟨⟨[1, 1], 0⟩, [1], [1]⟩

/-- The RandomFieldGreens instance of the spec's end-to-end scenario:
shape (16, 16), absolute 1e-3, membrane 0.1, bending 0, voxel size 1,
channel 1, caching at its default. -/
def mField16 : RandomFieldGreens := ⟨[16, 16], 1, 1/1000, 1/10, 0, [1], true⟩

/-- The cache state the scenario call stores before failing. -/
def cField16 : FieldGreensCache := ⟨⟨[1, 16, 16], 0⟩, [1, 1], [16, 16]⟩

/-- mField1 with every penalty weight changed (claim C4's counterexample
pairs it with mField1). -/
def mFieldB : RandomFieldGreens := ⟨[1], 1, 1, 2, 3, [1], true⟩

/-- A RandomGridGreens instance with caching enabled. -/
def mGridA : RandomGridGreens :=
  ⟨[2, 2], 0, 1/10000, 1/1000, 1/5, (1/20, 1/5), [1], true⟩

/-- mGridA with every penalty weight (including the Lame pair) changed. -/
def mGridB : RandomGridGreens := ⟨[2, 2], 0, 1, 2, 3, (0, 0), [1], true⟩

/-- A RandomFieldGreens instance constructed with cache_greens=False. -/
def mFieldNoCache : RandomFieldGreens := ⟨[3], 2, 1/1000, 1/10, 0, [1], false⟩

/-- A RandomGridGreens instance constructed with cache_greens=False. -/
def mGridNoCache : RandomGridGreens :=
  ⟨[2, 2], 0, 1/10000, 1/1000, 1/5, (1/20, 1/5), [1], false⟩

/-- A concrete resize layer used to instantiate the resampling contracts:
with an explicit shape it reshapes to (batch, requested spatial, vector
component count) and keeps the value function; without one it keeps the
tensor (reshaped into the same decomposition). -/
def wResize : Option (List Nat) → FieldType → Tensor → Tensor :=
  fun sh _ x =>
    match sh with
    | some s => ⟨x.shape.take 1 ++ s ++ [x.shape.getLastD 0], x.val⟩
    | none => ⟨x.shape.take 1 ++ (x.shape.drop 1).dropLast ++ [x.shape.getLastD 0], x.val⟩

/-- A concrete pull layer used to instantiate the warp contracts: it
resamples trivially, returning the image. -/
def wPull : Tensor → Tensor → Tensor := fun img _ => img

/-- A concrete exponentiation layer: the identity on fields. -/
def wVelexp : Bool → Tensor → Tensor := fun _ x => x

/-- A concrete grid-resize primitive: the identity. -/
def wRG : List Nat → Tensor → Tensor := fun _ x => x

/-- A concrete feature network: the identity. -/
def wId : Tensor → Tensor := fun x => x

/-- A feature network returning the all-zero velocity field of shape
(2, 2, 32, 32). -/
def wUnetZero : Tensor → Tensor := fun _ => tZero [2, 2, 32, 32]

/-- A concrete VoxelMorph instance over the trivial layers. -/
def wVM : VoxelMorph := ⟨2, wId, wResize, wVelexp, wPull, wRG⟩

/-- A source image of batch 2. -/
def wSource6 : Tensor := ⟨[2, 1, 4, 4], fun _ => 0⟩

/-- A target image of batch 3: not broadcast-compatible with batch 2. -/
def wTarget6 : Tensor := ⟨[3, 1, 4, 4], fun _ => 0⟩

/-- A concrete velocity field of shape (1, 3, 3, 2). -/
def wVelocity7 : Tensor := ⟨[1, 3, 3, 2], fun _ => 1⟩

/-- A source image of the orchestrator scenario, shape (2, 1, 32, 32). -/
def wSource8 : Tensor := ⟨[2, 1, 32, 32], fun _ => 7⟩

/-- A target image of the orchestrator scenario, shape (2, 1, 32, 32). -/
def wTarget8 : Tensor := ⟨[2, 1, 32, 32], fun _ => 3⟩

theorem okBind {α β : Type} (a : α) (f : α → Except TErr β) :
    (Except.ok a >>= f) = f a := rfl

theorem errBind {α β : Type} (e : TErr) (f : α → Except TErr β) :
    ((Except.error e : Except TErr α) >>= f) = Except.error e := rfl

/-- C1.  For every Greens-function sampler instance with caching enabled,
calling forward a second time with the same (shape, voxel_size,
channel_count) as the first call returns successfully using the cached
kernel without rebuilding it, and calling with a different shape forces a
rebuild of the kernel.  The code violates this: on mField1 the first call
succeeds (building and caching the kernel), but the second identical call
raises AttributeError while evaluating the cache condition, because it
reads self._channel and forward never stores a _channel attribute; no
rebuild runs and nothing is returned. -/
theorem c1_cache_attribute_error :
    mField1.forward none 0 1 = (.ok [1, 1, 1], some cField1, true) ∧
    mField1.forward (some cField1) 1 1 =
      (.error .attrChannelMissing, some cField1, false) :=
  ⟨rfl, rfl⟩

/-- C3.  The scalar-field Greens sampler called with shape=(16,16),
channel=1, batch=1000 (absolute=1e-3, membrane=0.1, bending=0,
voxel_size=1) should return an array of shape (1000, 1, 16, 16).  The code
violates this: after building (and caching) the kernel of shape
(1, 16, 16), the in-place multiply `sample *= greens.unsqueeze(-1)`
broadcasts the (1, 16, 16, 1) kernel against the (2, 1000, 1, 16, 16)
noise, whose broadcast shape (2, 1000, 16, 16, 16) differs from the
in-place operand, so the call raises a RuntimeError instead of returning. -/
theorem c3_forward_broadcast_error :
    mField16.forward none 0 1000 = (.error .inPlaceFail, some cField16, true) :=
  rfl

/-- C4 counterexample.  Changing only the penalty weights between two calls
of the scalar-field sampler (shape, voxel size and channel fixed) does not
make the next forward call reuse the cached kernel: the first call on
mField1 stores the cache, and the next call with all weights changed
(mFieldB) raises AttributeError inside the cache condition instead of
returning with the stale kernel. -/
theorem c4_field_counterexample :
    (mField1.forward none 0 1).2.1 = some cField1 ∧
    mFieldB.forward (some cField1) 1 1 =
      (.error .attrChannelMissing, some cField1, false) :=
  ⟨rfl, rfl⟩

/-- C4 (amended).  For the vector sampler RandomGridGreens with caching
enabled, after a first forward call has built and stored the kernel, a
second forward call on an instance that differs only in the penalty weights
(absolute, membrane, bending, Lame all unconstrained) while shape and voxel
size stay fixed performs no rebuild and reuses the previously cached
kernel, whose build identity is the first call's. -/
theorem c4_grid_stale_reuse (m1 m2 : RandomGridGreens) (i j b1 b2 : Nat)
    (hc : m1.cacheGreens = true)
    (hs : m2.shape = m1.shape) (hv : m2.voxelSize = m1.voxelSize) :
    ∃ c : GridGreensCache,
      (m1.forward none i b1).2.1 = some c ∧
      c.greens.buildId = i ∧
      m2.forward (some c) j b2 =
        (gridSampleShape c.greens m2.shape m2.shape.length b2, some c, false, c.greens) := by
  refine ⟨⟨⟨greensKernelShape m1.shape m1.lame, i⟩,
           makeVector m1.voxelSize m1.shape.length, m1.shape⟩, ?_, rfl, ?_⟩
  · simp [RandomGridGreens.forward, RandomGridGreens.build, hc]
  · simp [RandomGridGreens.forward, hs, hv]

/-- C4 witness: the amended claim instantiated with the concrete pair
mGridA, mGridB, which differ in every penalty weight. -/
theorem c4_grid_stale_reuse_witness :
    ∃ c : GridGreensCache,
      (mGridA.forward none 0 1).2.1 = some c ∧
      c.greens.buildId = 0 ∧
      mGridB.forward (some c) 1 2 =
        (gridSampleShape c.greens mGridB.shape mGridB.shape.length 2, some c, false, c.greens) :=
  c4_grid_stale_reuse mGridA mGridB 0 1 1 2 rfl rfl rfl

/-- C9.  A Greens-function sampler constructed with cache_greens=False
never stores the built kernel or its key: starting from the fresh state (no
_greens/_voxel_size/_shape attributes), any forward call of either sampler
leaves the persistent state absent and performs a kernel build. -/
theorem c9_no_cache_no_state (m : RandomFieldGreens) (g : RandomGridGreens)
    (i1 i2 b1 b2 : Nat)
    (hm : m.cacheGreens = false) (hg : g.cacheGreens = false) :
    (m.forward none i1 b1).2 = (none, true) ∧
    (g.forward none i2 b2).2.1 = none ∧ (g.forward none i2 b2).2.2.1 = true := by
  refine ⟨?_, ?_, ?_⟩
  · simp [RandomFieldGreens.forward, RandomFieldGreens.rebuildAndSample, hm]
  · simp [RandomGridGreens.forward, RandomGridGreens.build, hg]
  · simp [RandomGridGreens.forward, RandomGridGreens.build, hg]

/-- C9 witness: the statement at the concrete no-cache instances, with both
batch sizes and build counters explicit. -/
theorem c9_no_cache_no_state_witness :
    (mFieldNoCache.forward none 0 4).2 = (none, true) ∧
    (mGridNoCache.forward none 1 4).2.1 = none ∧
    (mGridNoCache.forward none 1 4).2.2.1 = true :=
  c9_no_cache_no_state mFieldNoCache mGridNoCache 0 1 4 4 rfl rfl

/-- C2.  The square-rooted kernel R produced by the operator square-root
stage should satisfy R composed with its transpose equals the original
Greens kernel.  The code violates this for vector kernels with non-zero
Lame terms: at a frequency bin whose kernel matrix is
lameKernelA = svdU * diagonal svdScale * svdU transposed (with svdU
orthogonal and svdScale nonnegative, exactly the contract torch.svd
guarantees on a symmetric positive semidefinite input, the square roots of
the singular values being rational here), the broadcast
`greens *= scale.sqrt_().unsqueeze(-1)` scales the rows of U, producing
R = diagonal (sqrt svdScale) * U, whose product with its transpose is
diagonal svdScale rather than the kernel. -/
theorem c2_sqrt_row_scaling :
    svdU * svdU.transpose = 1 ∧
    svdU.transpose * svdU = 1 ∧
    (0 ≤ svdScale 0 ∧ 0 ≤ svdScale 1 ∧ svdScale 1 ≤ svdScale 0) ∧
    (sqrtTable (svdScale 0) * sqrtTable (svdScale 0) = svdScale 0 ∧
     sqrtTable (svdScale 1) * sqrtTable (svdScale 1) = svdScale 1) ∧
    lameKernelSqrt sqrtTable svdU svdScale *
        (lameKernelSqrt sqrtTable svdU svdScale).transpose =
      Matrix.diagonal svdScale ∧
    lameKernelSqrt sqrtTable svdU svdScale *
        (lameKernelSqrt sqrtTable svdU svdScale).transpose ≠
      lameKernelA := by
  refine ⟨?_, ?_, ⟨by norm_num [svdScale], by norm_num [svdScale], by norm_num [svdScale]⟩,
    ⟨by norm_num [svdScale, sqrtTable], by norm_num [svdScale, sqrtTable]⟩, ?_, ?_⟩
  · ext i j
    fin_cases i <;> fin_cases j <;>
      simp [svdU, Matrix.mul_apply, Fin.sum_univ_two, Matrix.one_apply,
        Matrix.transpose_apply] <;> norm_num
  · ext i j
    fin_cases i <;> fin_cases j <;>
      simp [svdU, Matrix.mul_apply, Fin.sum_univ_two, Matrix.one_apply,
        Matrix.transpose_apply] <;> norm_num
  · ext i j
    fin_cases i <;> fin_cases j <;>
      simp [svdU, svdScale, sqrtTable, lameKernelSqrt, Matrix.mul_apply,
        Fin.sum_univ_two, Matrix.diagonal_apply, Matrix.transpose_apply] <;> norm_num
  · intro h
    have h01 := congrFun (congrFun h 0) 1
    simp only [lameKernelA, Matrix.mul_apply, Fin.sum_univ_two, Matrix.diagonal_apply,
      Matrix.transpose_apply, lameKernelSqrt, svdU, svdScale, sqrtTable,
      Matrix.of_apply] at h01
    norm_num at h01

/-- The voxel-size vector (4, 9) of claim C5's counterexample. -/
def c5Vox : Tensor := ⟨[2], fun idx => if idx = [0] then 4 else 9⟩

/-- A constant-one square-rooted scalar kernel on the 1 by 1 lattice. -/
def c5Greens : Tensor := ⟨[1, 1], fun _ => 1⟩

/-- Constant-one white noise of shape (2, 1, 1, 1, 2): real and imaginary
parts, batch 1, lattice 1 by 1, two vector components. -/
def c5Noise : Tensor := ⟨[2, 1, 1, 1, 2], fun _ => 1⟩

/-- C5 counterexample.  With Lame terms zero, voxel sizes (4, 9), kernel and
noise one, the code's filter divides vector component 0 by the square root
of its own axis's voxel size, yielding 1/2; the claim's division by the
square root of the voxel volume (product of per-axis sizes, 36) would yield
1/6; the two disagree. -/
theorem c5_volume_counterexample :
    Except.map (fun t => Tensor.val t [0, 0, 0, 0, 0])
        (gridSpectralFilter sqrtTable 2 c5Vox c5Greens c5Noise) = .ok (1/2) ∧
    specVolumeDivide sqrtTable [4, 9] (1 * 1) = 1/6 ∧
    (1/2 : ℚ) ≠ 1/6 := by
  refine ⟨?_, ?_, by norm_num⟩
  · have h : (1 : ℚ) * 1 / sqrtTable 4 = 1/2 := by norm_num [sqrtTable]
    rw [← h]
    rfl
  · norm_num [specVolumeDivide, sqrtTable, List.prod_cons, List.prod_nil]

/-- C5 (amended).  In the vector sampler's spectral filter: with zero Lame
terms the noise is multiplied elementwise by the square-rooted scalar
kernel and then divided componentwise by the square root of the per-axis
voxel size (component j is divided by sqrtFn of voxel size j, not by the
square root of the voxel volume); with non-zero Lame terms the
per-frequency matrix is applied as a matrix-vector product, by the same
formula for the real (r = 0) and imaginary (r = 1) noise slices
independently.  Stated for all kernel, noise and voxel values at the
representative configuration batch 1, lattice (2, 3) (scalar branch) and
lattice (2,) with d = 2 (matrix branch). -/
theorem c5_per_axis_filter :
    (∀ (s : ℚ → ℚ) (nv gv vv : List Nat → ℚ) (r x y j : Nat),
      r < 2 → x < 2 → y < 3 → j < 2 →
      Except.map (fun t => Tensor.val t [r, 0, x, y, j])
          (gridSpectralFilter s 2 ⟨[2], vv⟩ ⟨[2, 3], gv⟩ ⟨[2, 1, 2, 3, 2], nv⟩) =
        .ok (nv [r, 0, x, y, j] * gv [x, y] / s (vv [j]))) ∧
    (∀ (s : ℚ → ℚ) (nv gv vv : List Nat → ℚ) (r x i : Nat),
      r < 2 → x < 2 → i < 2 →
      Except.map (fun t => Tensor.val t [r, 0, x, i])
          (gridSpectralFilter s 2 ⟨[2], vv⟩ ⟨[2, 2, 2], gv⟩ ⟨[2, 1, 2, 2], nv⟩) =
        .ok (gv [x, i, 0] * nv [r, 0, x, 0] + gv [x, i, 1] * nv [r, 0, x, 1])) := by
  constructor
  · intro s nv gv vv r x y j hr hx hy hj
    rfl
  · intro s nv gv vv r x i hr hx hi
    show Except.ok (0 + gv [x, i, 1] * nv [r, 0, x, 1] + gv [x, i, 0] * nv [r, 0, x, 0])
        = Except.ok (gv [x, i, 0] * nv [r, 0, x, 0] + gv [x, i, 1] * nv [r, 0, x, 1])
    exact congrArg Except.ok (by ring)

/-- C5 witness: both branches of the amended claim evaluated at concrete
constant fields. -/
theorem c5_per_axis_filter_witness :
    (Except.map (fun t => Tensor.val t [1, 0, 1, 2, 1])
        (gridSpectralFilter sqrtTable 2 ⟨[2], fun _ => 9⟩ ⟨[2, 3], fun _ => 1⟩
          ⟨[2, 1, 2, 3, 2], fun _ => 1⟩) = .ok (1 * 1 / sqrtTable 9)) ∧
    (Except.map (fun t => Tensor.val t [0, 0, 1, 1])
        (gridSpectralFilter sqrtTable 2 ⟨[2], fun _ => 9⟩ ⟨[2, 2, 2], fun _ => 2⟩
          ⟨[2, 1, 2, 2], fun _ => 3⟩) = .ok (2 * 3 + 2 * 3)) :=
  ⟨c5_per_axis_filter.1 sqrtTable (fun _ => 1) (fun _ => 1) (fun _ => 9) 1 1 2 1
      (by decide) (by decide) (by decide) (by decide),
   c5_per_axis_filter.2 sqrtTable (fun _ => 3) (fun _ => 2) (fun _ => 9) 0 1 1
      (by decide) (by decide) (by decide)⟩

/-- C10.  Every element of the field returned by
RandomMultiplicativeField.forward is strictly positive: with sigmoid off the
output is the elementwise exponential of the real-valued inner random field
(any real values), and with sigmoid on every element lies strictly between
0 and 1. -/
theorem c10_multiplicative_positive (field : List Nat → ℝ) (idx : List Nat) :
    0 < RandomMultiplicativeField.forward true field idx ∧
    RandomMultiplicativeField.forward true field idx < 1 ∧
    0 < RandomMultiplicativeField.forward false field idx ∧
    RandomMultiplicativeField.forward false field idx = Real.exp (field idx) := by
  have hexp := Real.exp_pos (-(field idx))
  have hgt : (1 : ℝ) < Real.exp (-(field idx)) + 1 := by linarith
  refine ⟨?_, ?_, Real.exp_pos _, rfl⟩
  · simp only [RandomMultiplicativeField.forward, if_pos]
    positivity
  · simp only [RandomMultiplicativeField.forward, if_pos]
    rw [inv_lt_one_iff₀]
    right
    exact hgt

theorem vmForwardOfChecksError (self : VoxelMorph) (source target : Tensor)
    (sourceSeg targetSeg : Option Tensor) (e : TErr)
    (h : VoxelMorph.checks self.dim source.shape target.shape
      (sourceSeg.map Tensor.shape) (targetSeg.map Tensor.shape) = .error e) :
    self.forward source target sourceSeg targetSeg = .error e := by
  simp only [VoxelMorph.forward, h]
  rfl

theorem checkShapeBatchError (sa sb : List Nat)
    (h1 : sa.getD 0 1 ≠ sb.getD 0 1) (h2 : sa.getD 0 1 ≠ 1) (h3 : sb.getD 0 1 ≠ 1) :
    checkShapeDims (some sa) (some sb) [0] true = .error .shapeMismatch := by
  have e1 : (sa.getD 0 1 == sb.getD 0 1) = false := beq_eq_false_iff_ne.mpr h1
  have e2 : (sa.getD 0 1 == 1) = false := beq_eq_false_iff_ne.mpr h2
  have e3 : (sb.getD 0 1 == 1) = false := beq_eq_false_iff_ne.mpr h3
  simp only [checkShapeDims, List.all_cons, List.all_nil, Bool.and_true, e1, e2, e3,
    Bool.true_and, Bool.and_false, Bool.or_false, Bool.false_or]
  rfl

theorem checkShapeSomeError (sa sb dims : List Nat)
    (h : ∃ i ∈ dims, sa.getD i 1 ≠ sb.getD i 1) :
    checkShapeDims (some sa) (some sb) dims false = .error .shapeMismatch := by
  obtain ⟨i, hmem, hne⟩ := h
  have e1 : (sa.getD i 1 == sb.getD i 1) = false := beq_eq_false_iff_ne.mpr hne
  have hcond : (dims.all fun j => (sa.getD j 1 == sb.getD j 1)
      || (false && ((sa.getD j 1 == 1) || (sb.getD j 1 == 1)))) = false := by
    rw [List.all_eq_false]
    exact ⟨i, hmem, by simp only [e1, Bool.false_and, Bool.or_false]; decide⟩
  simp only [checkShapeDims, hcond]
  rfl

/-- C6.  When source and target disagree in batch size (and neither batch
is one, so no broadcast reconciles them) or in a checked spatial dimension,
or the segmentation maps do when both are provided, VoxelMorph.forward
fails with a contract violation for every choice of feature network,
resize, exponentiation, pull and grid-resize layers: the validation runs
and fails before any of them can be invoked, so the result is an error that
does not depend on them. -/
theorem c6_validation_first (dim : Nat) (source target : Tensor)
    (sourceSeg targetSeg : Option Tensor)
    (h : batchIncompat source.shape target.shape ∨
         spatialIncompat dim source.shape target.shape ∨
         (∃ ss ts, sourceSeg = some ss ∧ targetSeg = some ts ∧
           (batchIncompat ss.shape ts.shape ∨ spatialIncompat dim ss.shape ts.shape))) :
    ∀ unetF resizeF velexpF pullF rgF, ∃ e,
      (VoxelMorph.mk dim unetF resizeF velexpF pullF rgF).forward source target
        sourceSeg targetSeg = .error e := by
  intro unetF resizeF velexpF pullF rgF
  suffices hc : ∃ e, VoxelMorph.checks dim source.shape target.shape
      (sourceSeg.map Tensor.shape) (targetSeg.map Tensor.shape) = .error e by
    obtain ⟨e, he⟩ := hc
    exact ⟨e, vmForwardOfChecksError (VoxelMorph.mk dim unetF resizeF velexpF pullF rgF)
      source target sourceSeg targetSeg e he⟩
  cases hd : checkDim dim source.shape target.shape with
  | error e => exact ⟨e, by simp only [VoxelMorph.checks]; rw [hd]; rfl⟩
  | ok u =>
    cases u
    rcases h with hb | hs | hseg
    · obtain ⟨h1, h2, h3⟩ := hb
      refine ⟨.shapeMismatch, ?_⟩
      simp only [VoxelMorph.checks, hd, okBind]
      rw [checkShapeBatchError target.shape source.shape h1 h2 h3]
      rfl
    · cases hb0 : checkShapeDims (some target.shape) (some source.shape) [0] true with
      | error e =>
        exact ⟨e, by simp only [VoxelMorph.checks, hd, okBind]; rw [hb0]; rfl⟩
      | ok u2 =>
        cases u2
        refine ⟨.shapeMismatch, ?_⟩
        simp only [VoxelMorph.checks, hd, okBind, hb0]
        obtain ⟨i, hmem, hne⟩ := hs
        rw [checkShapeSomeError target.shape source.shape (List.range' 2 dim) ⟨i, hmem, hne⟩]
        rfl
    · obtain ⟨ss, ts, hss, hts, hseg2⟩ := hseg
      cases hb0 : checkShapeDims (some target.shape) (some source.shape) [0] true with
      | error e =>
        exact ⟨e, by simp only [VoxelMorph.checks, hd, okBind]; rw [hb0]; rfl⟩
      | ok u2 =>
        cases u2
        cases hsp0 : checkShapeDims (some target.shape) (some source.shape)
            (List.range' 2 dim) false with
        | error e =>
          exact ⟨e, by simp only [VoxelMorph.checks, hd, okBind, hb0]; rw [hsp0]; rfl⟩
        | ok u3 =>
          cases u3
          rcases hseg2 with hsb | hssp
          · obtain ⟨h1, h2, h3⟩ := hsb
            refine ⟨.shapeMismatch, ?_⟩
            simp only [VoxelMorph.checks, hd, okBind, hb0, hsp0, hss, hts, Option.map_some']
            rw [checkShapeBatchError ts.shape ss.shape h1 h2 h3]
            rfl
          · obtain ⟨i, hmem, hne⟩ := hssp
            cases hb1 : checkShapeDims (some ts.shape) (some ss.shape) [0] true with
            | error e =>
              refine ⟨e, ?_⟩
              simp only [VoxelMorph.checks, hd, okBind, hb0, hsp0, hss, hts,
                Option.map_some']
              rw [hb1]
              rfl
            | ok u4 =>
              cases u4
              refine ⟨.shapeMismatch, ?_⟩
              simp only [VoxelMorph.checks, hd, okBind, hb0, hsp0, hss, hts,
                Option.map_some']
              rw [hb1]
              simp only [okBind]
              rw [checkShapeSomeError ts.shape ss.shape (List.range' 2 dim) ⟨i, hmem, hne⟩]
              rfl

/-- C6 witness: with batch sizes 2 and 3 and the trivial layers, forward
fails with a contract violation. -/
theorem c6_validation_first_witness :
    ∃ e, (VoxelMorph.mk 2 wId wResize wVelexp wPull wRG).forward wSource6 wTarget6
      none none = .error e :=
  c6_validation_first 2 wSource6 wTarget6 none none
    (Or.inl ⟨by decide, by decide, by decide⟩) wId wResize wVelexp wPull wRG

theorem getLastD_cons_concat (a x : Nat) (l : List Nat) (b : Nat) :
    (a :: (l ++ [b])).getLastD x = b := by
  rw [show a :: (l ++ [b]) = (a :: l) ++ [b] from rfl, List.getLastD_concat]

/-- C7.  VoxelMorph.exp follows the state machine: the velocity is resized
to the integration lattice as a displacement-type field, exponentiated, and
resized back to the native spatial shape of the input velocity with type
'disp' when the caller requested a displacement and type 'grid' otherwise;
under the resize and exponentiation shape contracts (resizing preserves the
batch and vector-component axes, resizing to an explicit shape installs
that spatial shape, exponentiation preserves the shape), the returned grid
has the same shape, and in particular the same spatial shape, as the input
velocity. -/
theorem c7_exp_state_machine (self : VoxelMorph) (velocity : Tensor)
    (displacement : Bool) (bdim d : Nat) (S : List Nat)
    (hv : velocity.shape = bdim :: S ++ [d])
    (hrNone : ∀ ty x, ∃ s2, (self.resize none ty x).shape =
      x.shape.take 1 ++ s2 ++ [x.shape.getLastD 0])
    (hve : ∀ b x, (self.velexp b x).shape = x.shape)
    (hrSome : ∀ sh ty x, (self.resize (some sh) ty x).shape =
      x.shape.take 1 ++ sh ++ [x.shape.getLastD 0]) :
    self.exp velocity displacement =
      self.resize (some S) (if displacement then FieldType.disp else FieldType.grid)
        (self.velexp displacement (self.resize none FieldType.disp velocity)) ∧
    (self.exp velocity displacement).shape = velocity.shape := by
  have hS : (velocity.shape.drop 1).dropLast = S := by
    rw [hv]
    simp
  constructor
  · simp only [VoxelMorph.exp, hS]
  · obtain ⟨s2, hs2⟩ := hrNone FieldType.disp velocity
    have hgl : velocity.shape.getLastD 0 = d := by
      rw [hv]
      exact getLastD_cons_concat bdim 0 S d
    have htk : velocity.shape.take 1 = [bdim] := by
      rw [hv]
      rfl
    have hg : (self.velexp displacement (self.resize none FieldType.disp velocity)).shape
        = bdim :: (s2 ++ [d]) := by
      rw [hve, hs2, hgl, htk]
      rfl
    simp only [VoxelMorph.exp, hS]
    rw [hrSome, hg, hv]
    rw [show ((bdim :: (s2 ++ [d])).take 1) = [bdim] from rfl,
      getLastD_cons_concat bdim 0 s2 d]
    rfl

/-- C7 witness: the state machine and shape preservation at the concrete
velocity of shape (1, 3, 3, 2) with the trivial layers. -/
theorem c7_exp_state_machine_witness :
    wVM.exp wVelocity7 false =
      wVM.resize (some [3, 3]) FieldType.grid
        (wVM.velexp false (wVM.resize none FieldType.disp wVelocity7)) ∧
    (wVM.exp wVelocity7 false).shape = wVelocity7.shape :=
  c7_exp_state_machine wVM wVelocity7 false 1 2 [3, 3] rfl
    (fun _ x => ⟨(x.shape.drop 1).dropLast, rfl⟩)
    (fun _ _ => rfl)
    (fun _ _ _ => rfl)

theorem tScaleZero (c : ℚ) (t : Tensor) (h : isZeroVal t) : isZeroVal (tScale c t) :=
  fun idx => by
    show c * t.val idx = 0
    rw [h idx, mul_zero]

theorem ssIterZero (pull : Tensor → Tensor → Tensor)
    (hp : ∀ u g, isZeroVal u → isZeroVal (pull u g)) :
    ∀ (steps : Nat) (u : Tensor), isZeroVal u →
      isZeroVal (Nat.iterate (ssStep pull) steps u) := by
  intro steps
  induction steps with
  | zero => exact fun u hu => hu
  | succ n ih =>
    intro u hu
    rw [Function.iterate_succ_apply]
    apply ih
    intro idx
    show u.val idx + (pull u (tAddSame (idGridLike u) u)).val idx = 0
    rw [hu idx, hp u (tAddSame (idGridLike u) u) hu idx, add_zero]

/-- Zero velocity through the modelled scaling and squaring: the
non-displacement mode yields the identity grid and the displacement mode
yields the zero displacement, for any number of squaring steps. -/
theorem gridExpModelZero (pull : Tensor → Tensor → Tensor)
    (hp : ∀ u g, isZeroVal u → isZeroVal (pull u g))
    (steps : Nat) (v : Tensor) (hv : isZeroVal v) :
    isIdVal (GridExpModel pull steps false v) ∧
    isZeroVal (GridExpModel pull steps true v) := by
  have hu : isZeroVal (Nat.iterate (ssStep pull) steps (tScale (1 / 2 ^ steps) v)) :=
    ssIterZero pull hp steps _ (tScaleZero _ v hv)
  constructor
  · intro idx
    show idGridVal idx + (Nat.iterate (ssStep pull) steps (tScale (1 / 2 ^ steps) v)).val idx
        = idGridVal idx
    rw [hu idx, add_zero]
  · exact hu

theorem shootIterZero (K : Tensor → Tensor) (pull : Tensor → Tensor → Tensor)
    (hK : ∀ u, isZeroVal u → isZeroVal (K u))
    (hp : ∀ u g, isZeroVal u → isZeroVal (pull u g)) (factor dt : ℚ) :
    ∀ (steps : Nat) (s : ShootState), isZeroVal s.mom → isZeroVal s.travel →
      isZeroVal (Nat.iterate (shootStep K pull factor dt) steps s).mom ∧
      isZeroVal (Nat.iterate (shootStep K pull factor dt) steps s).travel := by
  intro steps
  induction steps with
  | zero => exact fun s h1 h2 => ⟨h1, h2⟩
  | succ n ih =>
    intro s h1 h2
    rw [Function.iterate_succ_apply]
    have hstep : isZeroVal (tScale dt (tScale factor (K s.mom))) :=
      tScaleZero dt _ (tScaleZero factor _ (hK _ h1))
    apply ih
    · exact hp _ _ h1
    · intro idx
      show (pull s.travel (tAddSame (idGridLike s.travel)
          (tScale dt (tScale factor (K s.mom))))).val idx
          + (tScale dt (tScale factor (K s.mom))).val idx = 0
      rw [hp _ _ h2 idx, hstep idx, add_zero]

/-- Zero velocity through the modelled geodesic shooting: identity grid and
zero displacement, for any number of Euler steps and any volume factor. -/
theorem gridShootModelZero (K : Tensor → Tensor) (pull : Tensor → Tensor → Tensor)
    (hK : ∀ u, isZeroVal u → isZeroVal (K u))
    (hp : ∀ u g, isZeroVal u → isZeroVal (pull u g))
    (steps : Nat) (factor : ℚ) (v : Tensor) (hv : isZeroVal v) :
    isIdVal (GridShootModel K pull steps factor false v) ∧
    isZeroVal (GridShootModel K pull steps factor true v) := by
  have hu := (shootIterZero K pull hK hp factor (1 / (steps : ℚ)) steps
    ⟨v, tZero v.shape⟩ hv (fun _ => rfl)).2
  constructor
  · intro idx
    show idGridVal idx + (Nat.iterate (shootStep K pull factor (1 / (steps : ℚ))) steps
        ⟨v, tZero v.shape⟩).travel.val idx = idGridVal idx
    rw [hu idx, add_zero]
  · exact hu

theorem channel2lastZero (t : Tensor) (h : isZeroVal t) :
    isZeroVal (channel2last t) :=
  fun idx => h (last2channelIdx idx)

/-- C8.  Zero-velocity identity: through either exponentiation strategy
(the modelled scaling-and-squaring or the modelled geodesic shooting, under
the zero-preservation contracts of the interpolation primitive pullE and
the Greens operator K) a zero velocity field yields the identity
deformation grid (each output coordinate equals its lattice coordinate) and
a zero displacement.  Consequently, for sources and targets of shape
(2, 1, 32, 32), a feature network returning an all-zero velocity makes
VoxelMorph.forward (with scaling-and-squaring exponentiation, a resize
layer that preserves zero displacements and identity grids, and a warp that
samples exactly at identity coordinates) return a deformed source equal to
source exactly, together with an all-zero returned velocity. -/
theorem c8_zero_velocity_identity
    (pullE pullW : Tensor → Tensor → Tensor) (K unetF : Tensor → Tensor)
    (resizeF : Option (List Nat) → FieldType → Tensor → Tensor)
    (rgF : List Nat → Tensor → Tensor) (steps : Nat) (factor : ℚ)
    (source target : Tensor)
    (hsrc : source.shape = [2, 1, 32, 32]) (htgt : target.shape = [2, 1, 32, 32])
    (hpz : ∀ u g, isZeroVal u → isZeroVal (pullE u g))
    (hK : ∀ u, isZeroVal u → isZeroVal (K u))
    (hpullId : ∀ img g, isIdVal g →
      (pullW img g).shape = img.shape ∧ ∀ idx, (pullW img g).val idx = img.val idx)
    (hrz : ∀ ty x, isZeroVal x → isZeroVal (resizeF none ty x))
    (hrid : ∀ sh x, isIdVal x → isIdVal (resizeF (some sh) FieldType.grid x))
    (hnet : isZeroVal (unetF (catChannel source target))) :
    (∀ v, isZeroVal v → isIdVal (GridExpModel pullE steps false v) ∧
      isZeroVal (GridExpModel pullE steps true v)) ∧
    (∀ v, isZeroVal v → isIdVal (GridShootModel K pullE steps factor false v) ∧
      isZeroVal (GridShootModel K pullE steps factor true v)) ∧
    (∃ dsrc vel,
      (VoxelMorph.mk 2 unetF resizeF (fun b x => GridExpModel pullE steps b x)
        pullW rgF).forward source target none none = .ok (dsrc, none, vel) ∧
      dsrc.shape = source.shape ∧ (∀ idx, dsrc.val idx = source.val idx) ∧
      isZeroVal vel) := by
  refine ⟨fun v hv => gridExpModelZero pullE hpz steps v hv,
          fun v hv => gridShootModelZero K pullE hK hpz steps factor v hv, ?_⟩
  have hvel : isZeroVal (channel2last (unetF (catChannel source target))) :=
    channel2lastZero _ hnet
  have hsmall : isZeroVal (resizeF none FieldType.disp
      (channel2last (unetF (catChannel source target)))) := hrz _ _ hvel
  have hexpid : isIdVal (GridExpModel pullE steps false (resizeF none FieldType.disp
      (channel2last (unetF (catChannel source target))))) :=
    (gridExpModelZero pullE hpz steps _ hsmall).1
  have hgridid : isIdVal ((VoxelMorph.mk 2 unetF resizeF
      (fun b x => GridExpModel pullE steps b x) pullW rgF).exp
      (channel2last (unetF (catChannel source target))) false) :=
    hrid _ _ hexpid
  obtain ⟨hshape, hval⟩ := hpullId source _ hgridid
  have hchecks : VoxelMorph.checks 2 source.shape target.shape none none = .ok () := by
    rw [hsrc, htgt]
    rfl
  refine ⟨_, _, ?_, hshape, hval, hvel⟩
  simp only [VoxelMorph.forward, Option.map_none', hchecks, okBind]
  rfl

/-- C8 witness: the zero-velocity identity at a concrete instantiation: the
trivial interpolation and Greens primitives, one integration step, volume
factor one, the zero feature network, and images of shape (2, 1, 32, 32). -/
theorem c8_zero_velocity_identity_witness :
    (∀ v, isZeroVal v → isIdVal (GridExpModel wPull 1 false v) ∧
      isZeroVal (GridExpModel wPull 1 true v)) ∧
    (∀ v, isZeroVal v → isIdVal (GridShootModel wId wPull 1 1 false v) ∧
      isZeroVal (GridShootModel wId wPull 1 1 true v)) ∧
    (∃ dsrc vel,
      (VoxelMorph.mk 2 wUnetZero wResize (fun b x => GridExpModel wPull 1 b x)
        wPull wRG).forward wSource8 wTarget8 none none = .ok (dsrc, none, vel) ∧
      dsrc.shape = wSource8.shape ∧ (∀ idx, dsrc.val idx = wSource8.val idx) ∧
      isZeroVal vel) :=
  c8_zero_velocity_identity wPull wPull wId wUnetZero wResize wRG 1 1
    wSource8 wTarget8 rfl rfl
    (fun _ _ h => h) (fun _ h => h)
    (fun _ _ _ => ⟨rfl, fun _ => rfl⟩)
    (fun _ _ h => h) (fun _ _ h => h)
    (fun _ => rfl)
